import Mathlib

/-!
Shallow embedding of the configuration schema and validation gate of the
Orion repository's vendored monitoring-agent package
(`vendor/github.com/newrelic/go-agent/config.go`).

The Go `Config` struct is translated field for field.  Two fields are
omitted: `Logger` and `Transport` are Go interface values carrying no data
relevant to defaulting or validation (`NewConfig` leaves them nil and
`Validate` never reads them).  Go `time.Duration` values are modelled as
`Int` nanosecond counts; Go `len` on strings (a UTF-8 byte count) is
modelled by `goLen`; the Go map `Labels` is modelled as an association
list.
-/

/-- Attribute inclusion/exclusion filter (`AttributeDestinationConfig` in
config.go), attached to transaction events, errors and transaction
traces. -/
structure AttributeDestinationConfig where
  Enabled : Bool
  Include : List String
  Exclude : List String
deriving DecidableEq

/-- Single-field feature toggle, the shape of the anonymous
`struct { Enabled bool }` groups in config.go (custom insights events,
cross application tracer, distributed tracer, span events, the datastore
sub-toggles and the runtime sampler). -/
structure EnabledToggle where
  Enabled : Bool
deriving DecidableEq

/-- The `TransactionEvents` group of the Go Config. -/
structure TransactionEventsConfig where
  Enabled : Bool
  Attributes : AttributeDestinationConfig
deriving DecidableEq

/-- The `ErrorCollector` group of the Go Config. -/
structure ErrorCollectorConfig where
  Enabled : Bool
  CaptureEvents : Bool
  IgnoreStatusCodes : List Int
  Attributes : AttributeDestinationConfig
deriving DecidableEq

/-- The `TransactionTracer.Threshold` group of the Go Config. -/
structure TransactionTracerThreshold where
  IsApdexFailing : Bool
  Duration : Int
deriving DecidableEq

/-- The `TransactionTracer` group of the Go Config. -/
structure TransactionTracerConfig where
  Enabled : Bool
  Threshold : TransactionTracerThreshold
  SegmentThreshold : Int
  StackTraceThreshold : Int
  Attributes : AttributeDestinationConfig
deriving DecidableEq

/-- The `Utilization` group of the Go Config. -/
structure UtilizationConfig where
  DetectAWS : Bool
  DetectAzure : Bool
  DetectPCF : Bool
  DetectGCP : Bool
  DetectDocker : Bool
  DetectKubernetes : Bool
  LogicalProcessors : Int
  TotalRAMMIB : Int
  BillingHostname : String
deriving DecidableEq

/-- The `DatastoreTracer.SlowQuery` group of the Go Config. -/
structure SlowQueryConfig where
  Enabled : Bool
  Threshold : Int
deriving DecidableEq

/-- The `DatastoreTracer` group of the Go Config. -/
structure DatastoreTracerConfig where
  InstanceReporting : EnabledToggle
  DatabaseNameReporting : EnabledToggle
  QueryParameters : EnabledToggle
  SlowQuery : SlowQueryConfig
deriving DecidableEq

/-- The root `Config` struct of config.go (Application and Transaction
behavior settings). -/
structure Config where
  AppName : String
  License : String
  Enabled : Bool
  Labels : List (String × String)
  HighSecurity : Bool
  SecurityPoliciesToken : String
  CustomInsightsEvents : EnabledToggle
  TransactionEvents : TransactionEventsConfig
  ErrorCollector : ErrorCollectorConfig
  TransactionTracer : TransactionTracerConfig
  HostDisplayName : String
  Utilization : UtilizationConfig
  CrossApplicationTracer : EnabledToggle
  DistributedTracer : EnabledToggle
  SpanEvents : EnabledToggle
  DatastoreTracer : DatastoreTracerConfig
  Attributes : AttributeDestinationConfig
  RuntimeSampler : EnabledToggle
deriving DecidableEq

/-- Go `len` on a string: the UTF-8 byte count. -/
def goLen (s : String) : Nat :=
  s.utf8ByteSize

/-- Go `strings.Count(s, ";")`: the number of `;` occurrences in `s`
(the rollup-name delimiter; `;` is ASCII, so byte occurrences and
character occurrences coincide). -/
def stringsCountSemicolon (s : String) : Nat :=
  s.data.countP (fun ch => ch == ';')

/-- The constant `licenseLength = 40` of config.go. -/
def licenseLength : Nat := 40

/-- The constant `appNameLimit = 3` of config.go. -/
def appNameLimit : Nat := 3

/-- Nanoseconds in one Go `time.Millisecond`. -/
def timeMillisecond : Int := 1000000

/-- The five named validation errors declared in config.go
(`errLicenseLen`, `errAppNameMissing`, `errAppNameLimit`,
`errHighSecurityWithSecurityPolicies`, `errMixedTracers`). -/
inductive ValidationError where
  | errLicenseLen
  | errAppNameMissing
  | errAppNameLimit
  | errHighSecurityWithSecurityPolicies
  | errMixedTracers
deriving DecidableEq

/-- NewConfig of config.go: a Config populated with the given appname,
license, and expected default values.  Fields `NewConfig` does not assign
keep the Go zero value of `Config{}` (empty string, 0, false, nil
slice). -/
def NewConfig (appname license : String) : Config where
  AppName := appname
  License := license
  Enabled := true
  Labels := []
  HighSecurity := false
  SecurityPoliciesToken := ""
  CustomInsightsEvents := { Enabled := true }
  TransactionEvents :=
    { Enabled := true
      Attributes := { Enabled := true, Include := [], Exclude := [] } }
  ErrorCollector :=
    { Enabled := true
      CaptureEvents := true
      IgnoreStatusCodes := [404]
      Attributes := { Enabled := true, Include := [], Exclude := [] } }
  TransactionTracer :=
    { Enabled := true
      Threshold := { IsApdexFailing := true, Duration := 500 * timeMillisecond }
      SegmentThreshold := 2 * timeMillisecond
      StackTraceThreshold := 500 * timeMillisecond
      Attributes := { Enabled := true, Include := [], Exclude := [] } }
  HostDisplayName := ""
  Utilization :=
    { DetectAWS := true
      DetectAzure := true
      DetectPCF := true
      DetectGCP := true
      DetectDocker := true
      DetectKubernetes := true
      LogicalProcessors := 0
      TotalRAMMIB := 0
      BillingHostname := "" }
  CrossApplicationTracer := { Enabled := true }
  DistributedTracer := { Enabled := false }
  SpanEvents := { Enabled := true }
  DatastoreTracer :=
    { InstanceReporting := { Enabled := true }
      DatabaseNameReporting := { Enabled := true }
      QueryParameters := { Enabled := true }
      SlowQuery := { Enabled := true, Threshold := 10 * timeMillisecond } }
  Attributes := { Enabled := true, Include := [], Exclude := [] }
  RuntimeSampler := { Enabled := true }

/-- Checks 2 to 5 of `Config.Validate`: the code reached after the license
length check of config.go does not return (both branches of the
enabled/disabled `if` fall through to this same sequence of checks). -/
def Config.validateTail (c : Config) : Option ValidationError :=
  if c.AppName = "" ∧ c.Enabled = true then
    some ValidationError.errAppNameMissing
  else if c.HighSecurity = true ∧ c.SecurityPoliciesToken ≠ "" then
    some ValidationError.errHighSecurityWithSecurityPolicies
  else if c.CrossApplicationTracer.Enabled = true ∧ c.DistributedTracer.Enabled = true then
    some ValidationError.errMixedTracers
  else if appNameLimit ≤ stringsCountSemicolon c.AppName then
    some ValidationError.errAppNameLimit
  else
    none

/-- Validate of config.go: checks the config for improper fields,
returning `some` error at the first failed check and `none` on
acceptance (Go returns the error value or nil). -/
def Config.Validate (c : Config) : Option ValidationError :=
  if c.Enabled then
    if goLen c.License ≠ licenseLength then
      some ValidationError.errLicenseLen
    else
      c.validateTail
  else
    if goLen c.License ≠ licenseLength ∧ goLen c.License ≠ 0 then
      some ValidationError.errLicenseLen
    else
      c.validateTail

/-- Invariant 1 of the spec: credential length wrong for the current
enabled state (`CredentialLengthInvalid`). -/
def violatesCredentialLength (c : Config) : Prop :=
  (c.Enabled = true ∧ goLen c.License ≠ licenseLength) ∨
    (c.Enabled = false ∧ goLen c.License ≠ licenseLength ∧ goLen c.License ≠ 0)

instance (c : Config) : Decidable (violatesCredentialLength c) := by
  unfold violatesCredentialLength
  infer_instance

/-- Invariant 2 of the spec: application name empty while the agent is
enabled (`ApplicationNameRequired`). -/
def violatesAppNameRequired (c : Config) : Prop :=
  c.AppName = "" ∧ c.Enabled = true

instance (c : Config) : Decidable (violatesAppNameRequired c) := by
  unfold violatesAppNameRequired
  infer_instance

/-- Invariant 3 of the spec: high security combined with a non-empty
security-policy token (`SecurityPolicyConflict`). -/
def violatesSecurityPolicyConflict (c : Config) : Prop :=
  c.HighSecurity = true ∧ c.SecurityPoliciesToken ≠ ""

instance (c : Config) : Decidable (violatesSecurityPolicyConflict c) := by
  unfold violatesSecurityPolicyConflict
  infer_instance

/-- Invariant 4 of the spec: both tracing strategies enabled
(`TracingStrategyConflict`). -/
def violatesTracingStrategyConflict (c : Config) : Prop :=
  c.CrossApplicationTracer.Enabled = true ∧ c.DistributedTracer.Enabled = true

instance (c : Config) : Decidable (violatesTracingStrategyConflict c) := by
  unfold violatesTracingStrategyConflict
  infer_instance

/-- Invariant 5 of the spec: rollup-name delimiter count at or above the
limit (`TooManyRollupNames`). -/
def violatesRollupNameLimit (c : Config) : Prop :=
  appNameLimit ≤ stringsCountSemicolon c.AppName

instance (c : Config) : Decidable (violatesRollupNameLimit c) := by
  unfold violatesRollupNameLimit
  infer_instance

/-- Normal form of `Config.Validate`: it reports the first violated
invariant in the order 1 to 5 of the spec and accepts otherwise. -/
theorem validate_eq_firstViolation (c : Config) :
    c.Validate =
      if violatesCredentialLength c then some ValidationError.errLicenseLen
      else if violatesAppNameRequired c then some ValidationError.errAppNameMissing
      else if violatesSecurityPolicyConflict c then
        some ValidationError.errHighSecurityWithSecurityPolicies
      else if violatesTracingStrategyConflict c then some ValidationError.errMixedTracers
      else if violatesRollupNameLimit c then some ValidationError.errAppNameLimit
      else none := by
  unfold Config.Validate Config.validateTail violatesCredentialLength violatesAppNameRequired
    violatesSecurityPolicyConflict violatesTracingStrategyConflict violatesRollupNameLimit
  rcases Bool.eq_false_or_eq_true c.Enabled with hE | hE <;> simp [hE]

/-- Sample credential of exactly `licenseLength` bytes. -/
def sampleLicense : String := "0123456789012345678901234567890123456789"

/-- A default-built configuration that passes every check. -/
def defaultValid : Config := NewConfig "svc" sampleLicense

/-- C1: for every application name that is non-empty and contains fewer
rollup-delimiter `;` occurrences than the limit, and every credential of
exactly the fixed required length 40, `Validate` applied to the
configuration produced by `NewConfig name credential` returns acceptance
(nil error). -/
theorem validate_newConfig_default_ok (name credential : String)
    (hname : name ≠ "")
    (hcount : stringsCountSemicolon name < appNameLimit)
    (hlen : goLen credential = licenseLength) :
    (NewConfig name credential).Validate = none := by
  unfold Config.Validate Config.validateTail NewConfig
  simp [hlen, hname, Nat.not_le.mpr hcount]

/-- C1 witness at name `svc` and a concrete 40-byte credential. -/
theorem validate_newConfig_default_ok_witness :
    "svc" ≠ "" ∧ stringsCountSemicolon "svc" < appNameLimit ∧
      goLen sampleLicense = licenseLength ∧
      (NewConfig "svc" sampleLicense).Validate = none :=
  ⟨by decide, by decide, by decide,
    validate_newConfig_default_ok "svc" sampleLicense (by decide) (by decide) (by decide)⟩

/-- C2: for every configuration, `Validate` reports the reason of the
first violated check in the fixed order credential length, application
name empty while enabled, high security with non-empty security-policy
token, both tracing strategies enabled, rollup-name count at or above the
limit; checks after the first violation are never reported, and a
configuration violating none of the five invariants is accepted. -/
theorem validate_reports_first_violation (c : Config) :
    c.Validate =
      if violatesCredentialLength c then some ValidationError.errLicenseLen
      else if violatesAppNameRequired c then some ValidationError.errAppNameMissing
      else if violatesSecurityPolicyConflict c then
        some ValidationError.errHighSecurityWithSecurityPolicies
      else if violatesTracingStrategyConflict c then some ValidationError.errMixedTracers
      else if violatesRollupNameLimit c then some ValidationError.errAppNameLimit
      else none :=
  validate_eq_firstViolation c

/-- C3: with the agent enabled, any credential length other than 40
(including the empty credential) is rejected with `errLicenseLen`; with
the agent disabled, any length other than 0 and 40 is rejected with
`errLicenseLen`, while lengths 0 and 40 pass the credential check, so
`errLicenseLen` is never the result. -/
theorem credential_check_behavior (c : Config) :
    (c.Enabled = true → goLen c.License ≠ licenseLength →
      c.Validate = some ValidationError.errLicenseLen) ∧
    (c.Enabled = false → goLen c.License ≠ licenseLength → goLen c.License ≠ 0 →
      c.Validate = some ValidationError.errLicenseLen) ∧
    (c.Enabled = false → (goLen c.License = 0 ∨ goLen c.License = licenseLength) →
      c.Validate ≠ some ValidationError.errLicenseLen) := by
  refine ⟨fun hE hL => ?_, fun hE hL hL0 => ?_, fun hE hL => ?_⟩
  · rw [validate_eq_firstViolation,
      if_pos (show violatesCredentialLength c from Or.inl ⟨hE, hL⟩)]
  · rw [validate_eq_firstViolation,
      if_pos (show violatesCredentialLength c from Or.inr ⟨hE, hL, hL0⟩)]
  · have hcred : ¬ violatesCredentialLength c := by
      unfold violatesCredentialLength
      rcases hL with h | h <;> simp [hE, h]
    rw [validate_eq_firstViolation, if_neg hcred]
    split_ifs <;> simp

/-- C3 witness: an enabled configuration with a 1-byte credential is
rejected with `errLicenseLen`; a disabled configuration with an empty
credential never yields `errLicenseLen`. -/
theorem credential_check_behavior_witness :
    ({ defaultValid with License := "x" } : Config).Validate
        = some ValidationError.errLicenseLen ∧
      ({ defaultValid with Enabled := false, License := "" } : Config).Validate
        ≠ some ValidationError.errLicenseLen :=
  ⟨(credential_check_behavior _).1 rfl (by decide),
    (credential_check_behavior _).2.2 rfl (Or.inl (by decide))⟩

/-- Counterexample configuration for the unrestricted empty-name claim:
enabled, empty name, but also an empty credential. -/
def emptyNameBadLicense : Config := { defaultValid with AppName := "", License := "" }

/-- C4 counterexample: an enabled configuration with an empty application
name is not always rejected with `errAppNameMissing`; when the credential
length is also wrong, the credential check fires first and `Validate`
returns `errLicenseLen`. -/
theorem appName_missing_counterexample :
    emptyNameBadLicense.Enabled = true ∧ emptyNameBadLicense.AppName = "" ∧
      emptyNameBadLicense.Validate = some ValidationError.errLicenseLen ∧
      emptyNameBadLicense.Validate ≠ some ValidationError.errAppNameMissing := by
  decide

/-- C4 amended: for every configuration with the enabled flag true, an
empty application name and a credential of the required length (so the
earlier credential check passes), `Validate` returns
`errAppNameMissing`. -/
theorem appName_missing_amended (c : Config)
    (hE : c.Enabled = true) (hA : c.AppName = "")
    (hL : goLen c.License = licenseLength) :
    c.Validate = some ValidationError.errAppNameMissing := by
  have hcred : ¬ violatesCredentialLength c := by
    unfold violatesCredentialLength
    simp [hE, hL]
  rw [validate_eq_firstViolation, if_neg hcred,
    if_pos (show violatesAppNameRequired c from ⟨hA, hE⟩)]

/-- C4 witness: the amended claim at a concrete enabled configuration
with a valid credential and an empty name. -/
theorem appName_missing_amended_witness :
    ({ defaultValid with AppName := "" } : Config).Validate
      = some ValidationError.errAppNameMissing :=
  appName_missing_amended _ rfl rfl (by decide)

/-- Counterexample configuration for the unrestricted high-security
claim: high security with a token, but also an empty credential. -/
def highSecurityBadLicense : Config :=
  { defaultValid with HighSecurity := true, SecurityPoliciesToken := "tok", License := "" }

/-- C5 counterexample: a configuration with high security and a non-empty
security-policy token is not rejected with
`errHighSecurityWithSecurityPolicies` regardless of all other fields;
with a wrong-length credential the credential check fires first. -/
theorem security_policy_counterexample :
    highSecurityBadLicense.HighSecurity = true ∧
      highSecurityBadLicense.SecurityPoliciesToken ≠ "" ∧
      highSecurityBadLicense.Validate = some ValidationError.errLicenseLen ∧
      highSecurityBadLicense.Validate
        ≠ some ValidationError.errHighSecurityWithSecurityPolicies := by
  decide

/-- C5 amended: for every configuration with the high-security flag true
and a non-empty security-policy token that passes the two earlier checks
(credential length valid for its enabled state, and name non-empty or
agent disabled), `Validate` returns
`errHighSecurityWithSecurityPolicies`, regardless of the values of all
remaining fields. -/
theorem security_policy_amended (c : Config)
    (hHS : c.HighSecurity = true) (hTok : c.SecurityPoliciesToken ≠ "")
    (hcred : ¬ violatesCredentialLength c)
    (hname : ¬ violatesAppNameRequired c) :
    c.Validate = some ValidationError.errHighSecurityWithSecurityPolicies := by
  rw [validate_eq_firstViolation, if_neg hcred, if_neg hname,
    if_pos (show violatesSecurityPolicyConflict c from ⟨hHS, hTok⟩)]

/-- C5 witness: the amended claim at a concrete configuration with high
security, a token, a valid credential and a non-empty name. -/
theorem security_policy_amended_witness :
    ({ defaultValid with HighSecurity := true, SecurityPoliciesToken := "tok" } : Config).Validate
      = some ValidationError.errHighSecurityWithSecurityPolicies :=
  security_policy_amended _ rfl (by decide) (by decide) (by decide)

/-- C6: for every configuration built by `NewConfig` from an otherwise
valid name and credential and then modified only by enabling the
distributed tracer (cross-application tracing is already enabled by
default), `Validate` returns `errMixedTracers`. -/
theorem mixed_tracers_on_defaults (name credential : String)
    (hname : name ≠ "")
    (hcount : stringsCountSemicolon name < appNameLimit)
    (hlen : goLen credential = licenseLength) :
    ({ NewConfig name credential with
        DistributedTracer := { Enabled := true } } : Config).Validate
      = some ValidationError.errMixedTracers := by
  unfold Config.Validate Config.validateTail NewConfig
  simp [hlen, hname]

/-- C6 witness at name `svc` and a concrete 40-byte credential. -/
theorem mixed_tracers_on_defaults_witness :
    ({ NewConfig "svc" sampleLicense with
        DistributedTracer := { Enabled := true } } : Config).Validate
      = some ValidationError.errMixedTracers :=
  mixed_tracers_on_defaults "svc" sampleLicense (by decide) (by decide) (by decide)

/-- C7: for every configuration passing the four earlier checks,
`Validate` rejects with `errAppNameLimit` exactly when the number of `;`
delimiters in the application name reaches the limit 3, and accepts
otherwise. -/
theorem rollup_limit_exact (c : Config)
    (h1 : ¬ violatesCredentialLength c)
    (h2 : ¬ violatesAppNameRequired c)
    (h3 : ¬ violatesSecurityPolicyConflict c)
    (h4 : ¬ violatesTracingStrategyConflict c) :
    c.Validate =
      if appNameLimit ≤ stringsCountSemicolon c.AppName then
        some ValidationError.errAppNameLimit
      else none := by
  rw [validate_eq_firstViolation, if_neg h1, if_neg h2, if_neg h3, if_neg h4]
  unfold violatesRollupNameLimit
  split_ifs <;> rfl

/-- C7 witness: an otherwise-valid configuration named `a;b;c` (two
delimiters) is accepted, and one named `a;b;c;d` (three delimiters) is
rejected with `errAppNameLimit`. -/
theorem rollup_limit_exact_witness :
    ({ defaultValid with AppName := "a;b;c" } : Config).Validate = none ∧
      ({ defaultValid with AppName := "a;b;c;d" } : Config).Validate
        = some ValidationError.errAppNameLimit := by
  constructor
  · rw [rollup_limit_exact _ (by decide) (by decide) (by decide) (by decide)]
    decide
  · rw [rollup_limit_exact _ (by decide) (by decide) (by decide) (by decide)]
    decide

/-- C8: for every name and credential, `NewConfig` enables every
feature-group flag (custom events, transaction events, error collection,
transaction tracing, span events, all datastore sub-toggles, runtime
sampling, all host-environment detection switches, cross-application
tracing) except distributed tracing, which is disabled, and its
error-collector ignore set contains exactly the status code 404. -/
theorem newConfig_default_toggles (name credential : String) :
    (NewConfig name credential).CustomInsightsEvents.Enabled = true ∧
      (NewConfig name credential).TransactionEvents.Enabled = true ∧
      (NewConfig name credential).ErrorCollector.Enabled = true ∧
      (NewConfig name credential).TransactionTracer.Enabled = true ∧
      (NewConfig name credential).SpanEvents.Enabled = true ∧
      (NewConfig name credential).DatastoreTracer.InstanceReporting.Enabled = true ∧
      (NewConfig name credential).DatastoreTracer.DatabaseNameReporting.Enabled = true ∧
      (NewConfig name credential).DatastoreTracer.QueryParameters.Enabled = true ∧
      (NewConfig name credential).DatastoreTracer.SlowQuery.Enabled = true ∧
      (NewConfig name credential).RuntimeSampler.Enabled = true ∧
      (NewConfig name credential).Utilization.DetectAWS = true ∧
      (NewConfig name credential).Utilization.DetectAzure = true ∧
      (NewConfig name credential).Utilization.DetectPCF = true ∧
      (NewConfig name credential).Utilization.DetectGCP = true ∧
      (NewConfig name credential).Utilization.DetectDocker = true ∧
      (NewConfig name credential).Utilization.DetectKubernetes = true ∧
      (NewConfig name credential).CrossApplicationTracer.Enabled = true ∧
      (NewConfig name credential).DistributedTracer.Enabled = false ∧
      (NewConfig name credential).ErrorCollector.IgnoreStatusCodes = [404] :=
  ⟨rfl, rfl, rfl, rfl, rfl, rfl, rfl, rfl, rfl, rfl, rfl, rfl, rfl, rfl, rfl, rfl, rfl,
    rfl, rfl⟩

/-- C9: `Validate` reads only the fields Enabled, License, AppName,
HighSecurity, SecurityPoliciesToken, CrossApplicationTracer.Enabled and
DistributedTracer.Enabled: two configurations agreeing on those seven
fields validate identically, however all other fields differ. -/
theorem validate_depends_only_on_checked_fields (a b : Config)
    (hEn : a.Enabled = b.Enabled)
    (hLic : a.License = b.License)
    (hApp : a.AppName = b.AppName)
    (hHS : a.HighSecurity = b.HighSecurity)
    (hTok : a.SecurityPoliciesToken = b.SecurityPoliciesToken)
    (hCat : a.CrossApplicationTracer.Enabled = b.CrossApplicationTracer.Enabled)
    (hDt : a.DistributedTracer.Enabled = b.DistributedTracer.Enabled) :
    a.Validate = b.Validate := by
  unfold Config.Validate Config.validateTail
  rw [hEn, hLic, hApp, hHS, hTok, hCat, hDt]

/-- C9 witness: the default-built configuration and a variant differing
in runtime sampling, host display name, labels, thresholds and the
error-collector ignore set validate identically. -/
theorem validate_depends_only_on_checked_fields_witness :
    defaultValid.Validate =
      ({ defaultValid with
          RuntimeSampler := { Enabled := false }
          HostDisplayName := "other-host"
          Labels := [("env", "test")]
          ErrorCollector :=
            { Enabled := false
              CaptureEvents := false
              IgnoreStatusCodes := [404, 500]
              Attributes := { Enabled := false, Include := ["a"], Exclude := ["b"] } }
          Utilization :=
            { DetectAWS := false
              DetectAzure := false
              DetectPCF := false
              DetectGCP := false
              DetectDocker := false
              DetectKubernetes := false
              LogicalProcessors := 8
              TotalRAMMIB := 4096
              BillingHostname := "bill" } } : Config).Validate :=
  validate_depends_only_on_checked_fields _ _ rfl rfl rfl rfl rfl rfl rfl

/-- Counterexample configuration for the unrestricted disabled-rollup
claim: disabled, four rollup names, but also a 1-byte credential. -/
def disabledBadLicense : Config :=
  { defaultValid with Enabled := false, License := "x", AppName := "a;b;c;d" }

/-- C10 counterexample: a disabled configuration whose application name
holds three `;` delimiters is not always rejected with
`errAppNameLimit`; with a credential length that is neither 0 nor 40 the
credential check fires first and `Validate` returns `errLicenseLen`. -/
theorem disabled_rollup_counterexample :
    disabledBadLicense.Enabled = false ∧
      appNameLimit ≤ stringsCountSemicolon disabledBadLicense.AppName ∧
      disabledBadLicense.Validate = some ValidationError.errLicenseLen ∧
      disabledBadLicense.Validate ≠ some ValidationError.errAppNameLimit := by
  decide

/-- C10 amended: for every configuration with the enabled flag false, the
empty-name check is skipped (`Validate` never returns
`errAppNameMissing`); and when the credential, security-policy and tracer
checks also pass, a name with 3 or more `;` delimiters is rejected with
`errAppNameLimit` while an empty name passes validation. -/
theorem disabled_name_checks_amended (c : Config)
    (hE : c.Enabled = false) :
    c.Validate ≠ some ValidationError.errAppNameMissing ∧
      (¬ violatesCredentialLength c → ¬ violatesSecurityPolicyConflict c →
        ¬ violatesTracingStrategyConflict c →
        (appNameLimit ≤ stringsCountSemicolon c.AppName →
            c.Validate = some ValidationError.errAppNameLimit) ∧
          (c.AppName = "" → c.Validate = none)) := by
  constructor
  · rw [validate_eq_firstViolation]
    have hname : ¬ violatesAppNameRequired c := by
      unfold violatesAppNameRequired
      simp [hE]
    split_ifs with h1 h2 <;> simp_all
  · intro hcred hsec htr
    have hname : ¬ violatesAppNameRequired c := by
      unfold violatesAppNameRequired
      simp [hE]
    rw [validate_eq_firstViolation, if_neg hcred, if_neg hname, if_neg hsec, if_neg htr]
    constructor
    · intro hcount
      rw [if_pos (show violatesRollupNameLimit c from hcount)]
    · intro hA
      have : ¬ violatesRollupNameLimit c := by
        unfold violatesRollupNameLimit
        simp [hA, stringsCountSemicolon, appNameLimit]
      rw [if_neg this]

/-- C10 witness: a concrete disabled configuration with an empty name and
empty credential passes validation, and the same configuration renamed to
`a;b;c;d` is rejected with `errAppNameLimit`. -/
theorem disabled_name_checks_amended_witness :
    ({ defaultValid with Enabled := false, License := "", AppName := "" } : Config).Validate
        = none ∧
      ({ defaultValid with Enabled := false, License := "", AppName := "a;b;c;d" } : Config).Validate
        = some ValidationError.errAppNameLimit := by
  constructor
  · exact ((disabled_name_checks_amended _ rfl).2 (by decide) (by decide) (by decide)).2 rfl
  · exact ((disabled_name_checks_amended _ rfl).2 (by decide) (by decide) (by decide)).1
      (by decide)
